import Mathlib

/-!
Verification of the `webextract` scraping service.

The repository carries two variants of the same single-file Go program:
`src/main.go` and the unnamed file `src/unnamed/part_000`.  Both define the
same data model (`Link`, `Meta`, `Response`), the same CAPTCHA gate
(`isCaptchaPending` guarded by `captchaMutex`, `detectAndPauseOnCaptcha`,
`manageConsoleInput`) and an HTTP handler `scrapeHandler`; they differ in the
link filter, the error-body encoding and the meta-attribute reads.  Both
variants are embedded below (`mainHandler` for `src/main.go`, `partHandler`
for `src/unnamed/part_000`) over a common model of the Go string primitives
and of the browser-engine reads that the handlers perform.
-/

namespace WebExtract

/-- Strings are modelled as lists of characters (Go strings are byte
sequences; all the strings involved are well-formed UTF-8, where a
character-level model of prefix/substring tests agrees with the Go byte-level
`strings.HasPrefix` / `strings.Contains` because UTF-8 is self-synchronising). -/
abbrev Str := List Char

/-- Model of Go `strings.HasPrefix(s, pre)` (argument order: prefix first). -/
def goHasPrefix : Str → Str → Bool
  | [], _ => true
  | _ :: _, [] => false
  | a :: as, b :: bs => a == b && goHasPrefix as bs

/-- Model of Go `strings.Contains(hay, needle)`: substring search. -/
def goContains : Str → Str → Bool
  | [], needle => needle.isEmpty
  | c :: t, needle => goHasPrefix needle (c :: t) || goContains t needle

/-- Model of Go `strings.ToLower` on one character, covering the alphabets
that occur in `captchaKeywords` (ASCII letters and the Russian alphabet);
all other characters are left unchanged. -/
def goToLowerChar (c : Char) : Char :=
  if 'A' ≤ c ∧ c ≤ 'Z' then Char.ofNat (c.toNat + 32)
  else if 'А' ≤ c ∧ c ≤ 'Я' then Char.ofNat (c.toNat + 32)
  else if c = 'Ё' then 'ё'
  else c

/-- Model of Go `strings.ToLower`. -/
def goToLower (s : Str) : Str := s.map goToLowerChar

/-- The white-space characters trimmed by Go `strings.TrimSpace`
(`unicode.IsSpace`): space, tab, newline, vertical tab, form feed,
carriage return, NEL and NBSP. -/
def isGoSpace (c : Char) : Bool :=
  c = ' ' || c = '\t' || c = '\n' || c = '\r' ||
  c = Char.ofNat 11 || c = Char.ofNat 12 || c = Char.ofNat 133 || c = Char.ofNat 160

/-- Model of Go `strings.TrimSpace`: drop white space from both ends. -/
def goTrimSpace (s : Str) : Str :=
  ((s.dropWhile isGoSpace).reverse.dropWhile isGoSpace).reverse

/-- Keyword list `captchaKeywords` from `src/main.go` lines 23-35 (identical list in
`src/unnamed/part_000` lines 23-26). -/
def captchaKeywords : List Str :=
  [ "капча".toList,
    "не робот".toList,
    "подозрительная активность".toList,
    "подтвердите, что".toList,
    "unusual traffic".toList,
    "are you a robot".toList,
    "prove you are human".toList,
    "captcha".toList ]

/-- The keyword loop of `detectAndPauseOnCaptcha` (`src/main.go` lines
94-124): lower-case the body text of the page, then return the first keyword of
the list that `strings.Contains` finds in it (`none` when no keyword
matches, in which case the action just continues). -/
def scanCaptcha (keywords : List Str) (bodyText : Str) : Option Str :=
  keywords.find? (fun k => goContains (goToLower bodyText) k)

/-- Setting the flag on detection: `isCaptchaPending = true`
(`src/main.go` lines 100-102). -/
def triggerGate (_pending : Bool) : Bool := true

/-- One console Enter in `manageConsoleInput` (`src/main.go` lines 219-224):
`if isCaptchaPending { isCaptchaPending = false }` under the mutex. -/
def resolveGate (pending : Bool) : Bool := if pending then false else pending

/-- The two events that mutate the gate flag; every access to
`isCaptchaPending` is serialised by `captchaMutex`, so a system history is a
sequence of these events. -/
inductive GateEvent
  | detect
  | consoleEnter
deriving DecidableEq

/-- One gate transition. -/
def gateStep (pending : Bool) : GateEvent → Bool
  | .detect => triggerGate pending
  | .consoleEnter => resolveGate pending

/-- The gate flag after a history of events, starting from the initial
`false` (`var isCaptchaPending bool`, zero value). -/
def runGate (evs : List GateEvent) : Bool := evs.foldl gateStep false

/-- The exit test of the polling loop in `detectAndPauseOnCaptcha`
(`src/main.go` lines 111-119): the loop breaks exactly when
`!isCaptchaPending`. -/
def pollLoopBreaks (pending : Bool) : Bool := !pending

/-- Go struct `Link` (`src/main.go` lines 45-48). -/
structure Link where
  href : Str
  text : Str
deriving DecidableEq

/-- Go struct `Meta` (`src/main.go` lines 49-53). -/
structure Meta where
  title : Str
  description : Str
  keywords : Str
deriving DecidableEq

/-- Go struct `Response` (`src/main.go` lines 54-58); `content`, `links`
and `meta` all carry `omitempty`. -/
structure Response where
  content : Str
  links : List Link
  meta : Option Meta
deriving DecidableEq

/-- Result of a fallible browser-engine read. -/
inductive EngineResult (α : Type)
  | ok (a : α)
  | error (e : Str)
deriving DecidableEq

/-- One anchor element of the loaded page, as the handlers see it:
its `href` attribute (`node.AttributeValue("href")`, empty string when the
attribute is absent), the result of reading its visible text with
`chromedp.Text` (used by `src/main.go` line 184) and the result of reading
its `textContent` with `chromedp.TextContent` (used by
`src/unnamed/part_000` line 191).  `none` models a failed read, whose error
both variants discard with `_ =`. -/
structure Anchor where
  href : Str
  textVisible : Option Str
  textContent : Option Str
deriving DecidableEq

/-- The query parameters of one `/scrape` request: `url` (empty when the
parameter is absent, as `r.URL.Query().Get` returns `""`), and the three
presence flags `content`, `links`, `meta`. -/
structure Query where
  url : Str
  hasContent : Bool
  hasLinks : Bool
  hasMeta : Bool
deriving DecidableEq

/-- The fixed page state a request runs against: the outcome of
`chromedp.Navigate` + `chromedp.WaitVisible` combined, the outcome of
reading the body text (`chromedp.Text` on `body`, performed by the CAPTCHA
check and by the `content` directive), the document title, the `content`
attribute of `meta[name=description]` / `meta[name=keywords]` (`none` when
the tag is absent), and the anchor elements of the page.  The title and anchor
enumeration reads are modelled as always succeeding; the claims under
verification do not depend on their failure. -/
structure PageState where
  nav : EngineResult Unit
  bodyText : EngineResult Str
  title : Str
  desc : Option Str
  keys : Option Str
  anchors : List Anchor
deriving DecidableEq

/-- Coarse trace of the pipeline stages a request actually executed. -/
inductive StepTag
  | navigateAndWait
  | captchaScan
  | collect
deriving DecidableEq

/-- Outcome of one pipeline run: a response, a `chromedp.Run` error, or a
hang (a blocking engine read that never returns). -/
inductive PipeOut
  | ok (r : Response)
  | fail (e : Str)
  | hang
deriving DecidableEq

/-- An HTTP response body: a plain-text body written by `http.Error`, a
JSON `ErrorResponse` written by `writeJsonError`, or an encoded `Response`. -/
inductive Body
  | textBody (msg : Str)
  | errJson (msg : Str)
  | okJson (r : Response)
deriving DecidableEq

/-- What the handler did with the connection: replied with a status and a
body, or never returned (blocked inside the pipeline). -/
inductive HandlerResult
  | reply (status : Nat) (body : Body)
  | blocked
deriving DecidableEq

/-- The status code of a handler result, when it produced one. -/
def statusOf : HandlerResult → Option Nat
  | .reply s _ => some s
  | .blocked => none

/-- Full observable outcome of one call to `scrapeHandler`: the reply, how
many tab contexts were created (`chromedp.NewContext`) and destroyed
(the deferred `cancelTab`), the gate flag when the handler is done, and the
pipeline stages that ran. -/
structure HandlerOutcome where
  result : HandlerResult
  tabsOpened : Nat
  tabsClosed : Nat
  gateAfter : Bool
  steps : List StepTag
deriving DecidableEq

/-- "#": the fragment test of both link filters. -/
def hashMark : Str := "#".toList

/-- "javascript:": the pseudo-URL test of the `part_000` link filter. -/
def jsScheme : Str := "javascript:".toList

/-- The link loop of `src/main.go` lines 177-189: skip an anchor when its
`href` is empty or starts with `#`; otherwise read the visible text of the node
(errors discarded, leaving the text empty), trim it, and append
`Link{href, text}`. -/
def extractLinksMain : List Anchor → List Link
  | [] => []
  | a :: rest =>
    if a.href.isEmpty || goHasPrefix hashMark a.href then
      extractLinksMain rest
    else
      { href := a.href, text := goTrimSpace (a.textVisible.getD []) } :: extractLinksMain rest

/-- The link loop of `src/unnamed/part_000` lines 185-196: skip an anchor
when its `href` is empty, starts with `#` or starts with `javascript:`;
otherwise read the `textContent` of the node (errors discarded), trim it, and
append `Link{href, text}`. -/
def extractLinksPart : List Anchor → List Link
  | [] => []
  | a :: rest =>
    if a.href.isEmpty || goHasPrefix hashMark a.href || goHasPrefix jsScheme a.href then
      extractLinksPart rest
    else
      { href := a.href, text := goTrimSpace (a.textContent.getD []) } :: extractLinksPart rest

/-- Message `Сервис занят решением CAPTCHA. Попробуйте позже.` (both variants). -/
def busyMsg : Str := "Сервис занят решением CAPTCHA. Попробуйте позже.".toList

/-- Message `Параметр url обязателен` (both variants; the original wraps
`url` in single quotes). -/
def urlRequiredMsg : Str := "Параметр \x27url\x27 обязателен".toList

/-- Message prefix `Не удалось выполнить скрапинг: ` that both variants prepend to
the pipeline error before replying with status 500. -/
def scrapeFailMsg : Str := "Не удалось выполнить скрапинг: ".toList

/-- The task pipeline of `src/main.go` lines 158-202, run against a fixed
page state: navigate and wait for `body` (an error aborts the run); read the
body text for the CAPTCHA check (an error aborts the run; a keyword match
parks the task until the operator resolves, then the pipeline continues);
then collect the requested data.  The `meta` directive (lines 191-196) reads
the two meta tags with `chromedp.AttributeValue(..., nil, chromedp.ByQuery)`:
with a `nil` ok-pointer the engine waits for a node matching the selector
(the comment at `src/unnamed/part_000` lines 163-164 records exactly this —
passing the ok-pointer is what makes the read non-blocking), so when the tag
is absent the read never returns and the pipeline hangs. -/
def mainPipeline (q : Query) (pg : PageState) : PipeOut × List StepTag :=
  match pg.nav with
  | .error e => (.fail e, [.navigateAndWait])
  | .ok _ =>
    match pg.bodyText with
    | .error e => (.fail e, [.navigateAndWait, .captchaScan])
    | .ok btext =>
      let content := if q.hasContent then goTrimSpace btext else []
      let links := if q.hasLinks then extractLinksMain pg.anchors else []
      let trace := [StepTag.navigateAndWait, StepTag.captchaScan, StepTag.collect]
      if q.hasMeta then
        match pg.desc with
        | none => (.hang, trace)
        | some d =>
          match pg.keys with
          | none => (.hang, trace)
          | some k =>
            (.ok { content := content, links := links,
                   meta := some { title := pg.title, description := d, keywords := k } },
             trace)
      else
        (.ok { content := content, links := links, meta := none }, trace)

/-- The task pipeline of `src/unnamed/part_000` lines 140-199: the same
navigation, wait and CAPTCHA check; the `meta` directive reads the two meta
tags with ok-pointers `&descOK` / `&keysOK`, which makes the reads
non-blocking — an absent tag just leaves the field empty; the link loop
additionally filters `javascript:` and reads `textContent`. -/
def partPipeline (q : Query) (pg : PageState) : PipeOut × List StepTag :=
  match pg.nav with
  | .error e => (.fail e, [.navigateAndWait])
  | .ok _ =>
    match pg.bodyText with
    | .error e => (.fail e, [.navigateAndWait, .captchaScan])
    | .ok btext =>
      let content := if q.hasContent then goTrimSpace btext else []
      let links := if q.hasLinks then extractLinksPart pg.anchors else []
      let meta := if q.hasMeta then
          some { title := pg.title, description := pg.desc.getD [],
                 keywords := pg.keys.getD [] : Meta }
        else none
      (.ok { content := content, links := links, meta := meta },
       [StepTag.navigateAndWait, StepTag.captchaScan, StepTag.collect])

/-- Handler `scrapeHandler` of `src/main.go` lines 131-212.  Under the mutex, a
pending gate rejects the request with 503 via `http.Error` (plain text)
before anything else; a missing `url` parameter rejects with 400; otherwise
exactly one tab context is created with a deferred `cancelTab`, the pipeline
runs, and the handler replies 500 (plain text) on error or 200 with the
JSON-encoded `Response` on success.  The deferred close runs on every
return path; a hang inside the pipeline means the handler never returns and
the tab is never closed.  On admitted paths the gate is `false` again when
the handler finishes (a detection episode ends only once the operator's
resolve has cleared the flag). -/
def mainHandler (pending : Bool) (q : Query) (pg : PageState) : HandlerOutcome :=
  if pending then
    { result := .reply 503 (.textBody busyMsg),
      tabsOpened := 0, tabsClosed := 0, gateAfter := pending, steps := [] }
  else if q.url.isEmpty then
    { result := .reply 400 (.textBody urlRequiredMsg),
      tabsOpened := 0, tabsClosed := 0, gateAfter := pending, steps := [] }
  else
    match mainPipeline q pg with
    | (.fail e, tr) =>
      { result := .reply 500 (.textBody (scrapeFailMsg ++ e)),
        tabsOpened := 1, tabsClosed := 1, gateAfter := false, steps := tr }
    | (.hang, tr) =>
      { result := .blocked,
        tabsOpened := 1, tabsClosed := 0, gateAfter := false, steps := tr }
    | (.ok r, tr) =>
      { result := .reply 200 (.okJson r),
        tabsOpened := 1, tabsClosed := 1, gateAfter := false, steps := tr }

/-- Handler `scrapeHandler` of `src/unnamed/part_000` lines 116-211: identical
admission and tab lifecycle, but every error reply goes through
`writeJsonError` (lines 110-114), which encodes `ErrorResponse{Error: msg}`. -/
def partHandler (pending : Bool) (q : Query) (pg : PageState) : HandlerOutcome :=
  if pending then
    { result := .reply 503 (.errJson busyMsg),
      tabsOpened := 0, tabsClosed := 0, gateAfter := pending, steps := [] }
  else if q.url.isEmpty then
    { result := .reply 400 (.errJson urlRequiredMsg),
      tabsOpened := 0, tabsClosed := 0, gateAfter := pending, steps := [] }
  else
    match partPipeline q pg with
    | (.fail e, tr) =>
      { result := .reply 500 (.errJson (scrapeFailMsg ++ e)),
        tabsOpened := 1, tabsClosed := 1, gateAfter := false, steps := tr }
    | (.hang, tr) =>
      { result := .blocked,
        tabsOpened := 1, tabsClosed := 0, gateAfter := false, steps := tr }
    | (.ok r, tr) =>
      { result := .reply 200 (.okJson r),
        tabsOpened := 1, tabsClosed := 1, gateAfter := false, steps := tr }

/-- Hexadecimal digit, lower case, as `encoding/json` prints escapes. -/
def hexDigit (n : Nat) : Char :=
  if n < 10 then Char.ofNat (48 + n) else Char.ofNat (87 + n)

/-- Escaping of one character by Go `encoding/json` (default encoder with
HTML escaping): quote, backslash, the short escapes, control characters as
`\u00XX`, the HTML-sensitive characters, and U+2028/U+2029. -/
def jsonEscapeChar (c : Char) : Str :=
  if c = Char.ofNat 34 then ['\\', Char.ofNat 34]
  else if c = '\\' then ['\\', '\\']
  else if c = '\n' then ['\\', 'n']
  else if c = '\r' then ['\\', 'r']
  else if c = '\t' then ['\\', 't']
  else if c.toNat < 32 then ['\\', 'u', '0', '0', hexDigit (c.toNat / 16), hexDigit (c.toNat % 16)]
  else if c = '<' then "\\u003c".toList
  else if c = '>' then "\\u003e".toList
  else if c = '&' then "\\u0026".toList
  else if c = Char.ofNat 8232 then "\\u2028".toList
  else if c = Char.ofNat 8233 then "\\u2029".toList
  else [c]

/-- JSON escaping of a whole string. -/
def jsonEscape (s : Str) : Str := (s.map jsonEscapeChar).flatten

/-- A JSON string literal: escaped content between double quotes. -/
def quoteJson (s : Str) : Str := Char.ofNat 34 :: (jsonEscape s ++ [Char.ofNat 34])

/-- JSON encoding of one `Link` (both fields always present). -/
def encodeLink (l : Link) : Str :=
  "\x7b\x22href\x22:".toList ++ quoteJson l.href ++
  ",\x22text\x22:".toList ++ quoteJson l.text ++ "\x7d".toList

/-- JSON encoding of `Meta` (no `omitempty` on its fields: all three are
always present). -/
def encodeMeta (m : Meta) : Str :=
  "\x7b\x22title\x22:".toList ++ quoteJson m.title ++
  ",\x22description\x22:".toList ++ quoteJson m.description ++
  ",\x22keywords\x22:".toList ++ quoteJson m.keywords ++ "\x7d".toList

/-- JSON encoding of `Response` under Go `encoding/json` field order and
`omitempty`: `content` is omitted when empty, `links` when nil/empty, `meta`
when the pointer is nil. -/
def encodeResponse (r : Response) : Str :=
  "\x7b".toList ++
  List.intercalate [','] (
    (if r.content.isEmpty then [] else ["\x22content\x22:".toList ++ quoteJson r.content]) ++
    (if r.links.isEmpty then []
     else ["\x22links\x22:[".toList ++
           List.intercalate [','] (r.links.map encodeLink) ++ "]".toList]) ++
    (match r.meta with
     | none => []
     | some m => ["\x22meta\x22:".toList ++ encodeMeta m])) ++
  "\x7d".toList

/-- The bytes a `Body` puts on the wire: `http.Error` writes the message
plus a newline; `json.NewEncoder(w).Encode` writes the JSON value plus a
newline. -/
def encodeBody : Body → Str
  | .textBody m => m ++ ['\n']
  | .errJson m => "\x7b\x22error\x22:".toList ++ quoteJson m ++ "\x7d".toList ++ ['\n']
  | .okJson r => encodeResponse r ++ ['\n']

/-- Recogniser for the JSON error shape, used to refute the claim that
every error body has it. -/
def isJsonErrorBody : Body → Bool
  | .errJson _ => true
  | _ => false

/-- A page state used by concrete witnesses and counterexamples: navigation
succeeds, the body text is empty, no meta tags, no anchors. -/
def samplePage : PageState :=
  { nav := .ok (), bodyText := .ok [], title := [], desc := none, keys := none, anchors := [] }

/-! ### Shared lemmas about the Go string primitives -/

theorem goHasPrefix_iff (pre s : Str) : goHasPrefix pre s = true ↔ pre <+: s := by
  induction pre generalizing s with
  | nil => simp [goHasPrefix, List.nil_prefix]
  | cons a as ih =>
    cases s with
    | nil => simp [goHasPrefix, List.prefix_nil]
    | cons b bs => simp [goHasPrefix, List.cons_prefix_cons, ih]

theorem goContains_iff (hay needle : Str) : goContains hay needle = true ↔ needle <:+: hay := by
  induction hay with
  | nil => simp [goContains, List.infix_nil, List.isEmpty_iff]
  | cons c t ih =>
    rw [show goContains (c :: t) needle = (goHasPrefix needle (c :: t) || goContains t needle)
          from rfl,
        Bool.or_eq_true, goHasPrefix_iff, ih, List.infix_cons_iff]

theorem find?_eq_head?_filter {α : Type} (p : α → Bool) (l : List α) :
    l.find? p = (l.filter p).head? := by
  induction l with
  | nil => rfl
  | cons a t ih =>
    cases hp : p a
    · rw [List.find?_cons_of_neg _ (by simp [hp]), List.filter_cons, if_neg (by simp [hp])]
      exact ih
    · rw [List.find?_cons_of_pos _ hp, List.filter_cons, if_pos hp]
      rfl

theorem find?_isSome_any {α : Type} (p : α → Bool) (l : List α) :
    (l.find? p).isSome = l.any p := by
  induction l with
  | nil => rfl
  | cons a t ih =>
    cases hp : p a
    · rw [List.find?_cons_of_neg _ (by simp [hp]), List.any_cons, hp, Bool.false_or]
      exact ih
    · rw [List.find?_cons_of_pos _ hp, List.any_cons, hp]
      rfl

/-! ### Shared lemmas about the gate history -/

theorem foldl_gateStep_eq_true (evs : List GateEvent) (p : Bool) :
    List.foldl gateStep p evs = true ↔
      (∃ l r, evs = l ++ GateEvent.detect :: r ∧ GateEvent.consoleEnter ∉ r) ∨
      (p = true ∧ GateEvent.consoleEnter ∉ evs) := by
  induction evs generalizing p with
  | nil =>
    constructor
    · intro h
      exact Or.inr ⟨h, by simp⟩
    · rintro (⟨l, r, heq, -⟩ | ⟨h, -⟩)
      · exact absurd heq (by simp)
      · exact h
  | cons e t ih =>
    cases e with
    | detect =>
      rw [List.foldl_cons]
      have hg : gateStep p GateEvent.detect = true := rfl
      rw [hg, ih]
      constructor
      · rintro (⟨l, r, rfl, hr⟩ | ⟨-, ht⟩)
        · exact Or.inl ⟨GateEvent.detect :: l, r, rfl, hr⟩
        · exact Or.inl ⟨[], t, rfl, ht⟩
      · rintro (⟨l, r, heq, hr⟩ | ⟨-, hne⟩)
        · cases l with
          | nil =>
            rw [List.nil_append] at heq
            injection heq with h1 h2
            subst h2
            exact Or.inr ⟨rfl, hr⟩
          | cons x l' =>
            rw [List.cons_append] at heq
            injection heq with h1 h2
            exact Or.inl ⟨l', r, h2, hr⟩
        · exact Or.inr ⟨rfl, fun h => hne (List.mem_cons_of_mem _ h)⟩
    | consoleEnter =>
      rw [List.foldl_cons]
      have hg : gateStep p GateEvent.consoleEnter = false := by
        cases p <;> rfl
      rw [hg, ih]
      constructor
      · rintro (⟨l, r, rfl, hr⟩ | ⟨h, -⟩)
        · exact Or.inl ⟨GateEvent.consoleEnter :: l, r, rfl, hr⟩
        · exact absurd h (by simp)
      · rintro (⟨l, r, heq, hr⟩ | ⟨-, hne⟩)
        · cases l with
          | nil =>
            rw [List.nil_append] at heq
            injection heq with h1 h2
            exact GateEvent.noConfusion h1
          | cons x l' =>
            rw [List.cons_append] at heq
            injection heq with h1 h2
            exact Or.inl ⟨l', r, h2, hr⟩
        · exact absurd (List.mem_cons_self _ _) hne

/-! ### Shared lemmas about the link loops and the pipelines -/

theorem extractLinksMain_eq (anchors : List Anchor) :
    extractLinksMain anchors =
      (anchors.filter fun a => !(a.href.isEmpty || goHasPrefix hashMark a.href)).map
        (fun a => { href := a.href, text := goTrimSpace (a.textVisible.getD []) }) := by
  induction anchors with
  | nil => rfl
  | cons a rest ih =>
    cases he : a.href.isEmpty <;> cases hh : goHasPrefix hashMark a.href <;>
      simp [extractLinksMain, List.filter_cons, he, hh, ih]

theorem extractLinksPart_eq (anchors : List Anchor) :
    extractLinksPart anchors =
      (anchors.filter fun a =>
          !(a.href.isEmpty || goHasPrefix hashMark a.href || goHasPrefix jsScheme a.href)).map
        (fun a => { href := a.href, text := goTrimSpace (a.textContent.getD []) }) := by
  induction anchors with
  | nil => rfl
  | cons a rest ih =>
    cases he : a.href.isEmpty <;> cases hh : goHasPrefix hashMark a.href <;>
        cases hj : goHasPrefix jsScheme a.href <;>
      simp [extractLinksPart, List.filter_cons, he, hh, hj, ih]

theorem extractLinks_agree (anchors : List Anchor)
    (h : ∀ a ∈ anchors, goHasPrefix jsScheme a.href = false ∧ a.textVisible = a.textContent) :
    extractLinksMain anchors = extractLinksPart anchors := by
  induction anchors with
  | nil => rfl
  | cons a rest ih =>
    obtain ⟨hjs, htext⟩ := h a (List.mem_cons_self _ _)
    have ih' := ih fun b hb => h b (List.mem_cons_of_mem _ hb)
    cases he : a.href.isEmpty <;> cases hh : goHasPrefix hashMark a.href <;>
      simp [extractLinksMain, extractLinksPart, he, hh, hjs, htext, ih']

theorem partPipeline_ne_hang (q : Query) (pg : PageState) :
    (partPipeline q pg).1 ≠ PipeOut.hang := by
  cases hn : pg.nav with
  | error e => simp [partPipeline, hn]
  | ok u =>
    cases hb : pg.bodyText with
    | error e => simp [partPipeline, hn, hb]
    | ok b => simp [partPipeline, hn, hb]

theorem pipelines_fail_iff (q : Query) (pg : PageState) (e : Str) :
    (mainPipeline q pg).1 = PipeOut.fail e ↔ (partPipeline q pg).1 = PipeOut.fail e := by
  cases hn : pg.nav with
  | error e' => simp [mainPipeline, partPipeline, hn]
  | ok u =>
    cases hb : pg.bodyText with
    | error e' => simp [mainPipeline, partPipeline, hn, hb]
    | ok b =>
      cases hm : q.hasMeta
      · simp [mainPipeline, partPipeline, hn, hb, hm]
      · cases hd : pg.desc with
        | none => simp [mainPipeline, partPipeline, hn, hb, hm, hd]
        | some d =>
          cases hk : pg.keys with
          | none => simp [mainPipeline, partPipeline, hn, hb, hm, hd, hk]
          | some k => simp [mainPipeline, partPipeline, hn, hb, hm, hd, hk]

/-! ### Claims -/

/-- C1 (counterexample): the claim says link extraction excludes every
anchor whose `href` starts with `javascript:`; the `src/main.go` variant of
`scrapeHandler` does not — an anchor with
`href = "javascript:void(0)"` survives its filter and appears in the links
list. -/
theorem c1_counterexample :
    goHasPrefix jsScheme "javascript:void(0)".toList = true ∧
    extractLinksMain
        [{ href := "javascript:void(0)".toList, textVisible := some " x ".toList,
           textContent := some " x ".toList }]
      = [{ href := "javascript:void(0)".toList, text := ['x'] }] :=
  ⟨rfl, rfl⟩

/-- C1 (amended): in the `src/unnamed/part_000` variant an anchor is
excluded precisely when its `href` is empty, starts with `#`, or starts
with `javascript:`, and every other anchor appears with its `href` and its
whitespace-trimmed text; in the `src/main.go` variant the exclusion test is
only "empty or starts with `#`" (a `javascript:` href is kept). -/
theorem c1_link_filter (anchors : List Anchor) :
    extractLinksPart anchors =
      (anchors.filter fun a =>
          !(a.href.isEmpty || goHasPrefix hashMark a.href || goHasPrefix jsScheme a.href)).map
        (fun a => { href := a.href, text := goTrimSpace (a.textContent.getD []) }) ∧
    extractLinksMain anchors =
      (anchors.filter fun a => !(a.href.isEmpty || goHasPrefix hashMark a.href)).map
        (fun a => { href := a.href, text := goTrimSpace (a.textVisible.getD []) }) :=
  ⟨extractLinksPart_eq anchors, extractLinksMain_eq anchors⟩

/-- C1 (witness): the theorem applied to a concrete anchor list. -/
theorem c1_witness :
    extractLinksPart
        [Anchor.mk "#top".toList (some ['a']) (some ['a']),
         Anchor.mk "/a".toList (some [' ', 'b']) (some [' ', 'b'])]
      = ([Anchor.mk "#top".toList (some ['a']) (some ['a']),
          Anchor.mk "/a".toList (some [' ', 'b']) (some [' ', 'b'])].filter
            fun a =>
              !(a.href.isEmpty || goHasPrefix hashMark a.href || goHasPrefix jsScheme a.href)).map
          (fun a => { href := a.href, text := goTrimSpace (a.textContent.getD []) }) :=
  (c1_link_filter _).1

/-- C2: the keyword loop of `detectAndPauseOnCaptcha` reports a match if
and only if the lowercased page text contains some keyword of the list as a
substring (`goContains` coincides with `List.IsInfix`), and the keyword it
reports is the first keyword in list order that is contained: `find?` over
the list equals the head of the filtered list. -/
theorem c2_captcha_scan (kws : List Str) (text : Str) :
    scanCaptcha kws text = (kws.filter fun k => goContains (goToLower text) k).head? ∧
    (scanCaptcha kws text).isSome = kws.any (fun k => goContains (goToLower text) k) ∧
    ∀ k : Str, goContains (goToLower text) k = true ↔ k <:+: goToLower text :=
  ⟨find?_eq_head?_filter _ _, find?_isSome_any _ _, fun k => goContains_iff (goToLower text) k⟩

/-- C2 (witness): on a concrete page text the scan returns the keyword
`captcha`, and the characterisation of the theorem instantiates to it. -/
theorem c2_witness :
    scanCaptcha captchaKeywords "Please solve the CAPTCHA below".toList
      = some "captcha".toList ∧
    scanCaptcha captchaKeywords "Please solve the CAPTCHA below".toList
      = (captchaKeywords.filter fun k =>
          goContains (goToLower "Please solve the CAPTCHA below".toList) k).head? :=
  ⟨rfl, (c2_captcha_scan captchaKeywords "Please solve the CAPTCHA below".toList).1⟩

/-- C3: the gate flag is true after a history of serialised gate events
exactly when some detection (`isCaptchaPending = true` inside
`detectAndPauseOnCaptcha`) is not followed by a console Enter; while it is
true, both variants of `scrapeHandler` reply 503, create no tab and run no
pipeline step; and the polling loop of the detecting task does not break while
the flag is set. -/
theorem c3_gate_temporal :
    (∀ evs : List GateEvent,
        runGate evs = true ↔
          ∃ l r, evs = l ++ GateEvent.detect :: r ∧ GateEvent.consoleEnter ∉ r) ∧
    (∀ (q : Query) (pg : PageState),
        (mainHandler true q pg).result = .reply 503 (.textBody busyMsg) ∧
        (mainHandler true q pg).tabsOpened = 0 ∧
        (mainHandler true q pg).steps = [] ∧
        (partHandler true q pg).result = .reply 503 (.errJson busyMsg) ∧
        (partHandler true q pg).tabsOpened = 0 ∧
        (partHandler true q pg).steps = []) ∧
    pollLoopBreaks true = false := by
  refine ⟨fun evs => ?_, fun q pg => ⟨rfl, rfl, rfl, rfl, rfl, rfl⟩, rfl⟩
  rw [runGate, foldl_gateStep_eq_true]
  simp

/-- C3 (witness): a single detection leaves the gate busy. -/
theorem c3_witness : runGate [GateEvent.detect] = true :=
  (c3_gate_temporal.1 [GateEvent.detect]).mpr ⟨[], [], rfl, by simp⟩

/-- C9: one console Enter (`manageConsoleInput`) is idempotent on the gate
flag: applied to a cleared gate it is a no-op, and applying it twice from
either state leaves the same state as applying it once. -/
theorem c9_resolve_idempotent :
    resolveGate false = false ∧
    resolveGate (resolveGate false) = resolveGate false ∧
    resolveGate (resolveGate true) = resolveGate true :=
  ⟨rfl, rfl, rfl⟩

/-- C4: a request admitted while the gate is open, with a non-empty `url`,
creates exactly one tab context and closes it exactly once on every exit
path — whether the pipeline fails or succeeds.  For the `src/main.go`
variant the statement is about exit paths, so it is conditioned on the
handler actually returning (the blocking meta read of that variant never
reaches an exit); the `src/unnamed/part_000` variant always returns. -/
theorem c4_tab_lifecycle (q : Query) (pg : PageState) (hurl : q.url ≠ []) :
    ((mainHandler false q pg).result ≠ .blocked →
      (mainHandler false q pg).tabsOpened = 1 ∧ (mainHandler false q pg).tabsClosed = 1) ∧
    ((partHandler false q pg).tabsOpened = 1 ∧ (partHandler false q pg).tabsClosed = 1) := by
  have hempty : q.url.isEmpty = false := List.isEmpty_eq_false.mpr hurl
  constructor
  · intro hnb
    rcases hmp : mainPipeline q pg with ⟨po, tr⟩
    cases po <;> simp_all [mainHandler, hempty, hmp]
  · rcases hpp : partPipeline q pg with ⟨po, tr⟩
    have hnh := partPipeline_ne_hang q pg
    rw [hpp] at hnh
    cases po <;> simp_all [partHandler, hempty, hpp]

/-- C4 (witness): the theorem at a concrete admitted request. -/
theorem c4_witness :
    (partHandler false (Query.mk ['a'] false false false) samplePage).tabsOpened = 1 ∧
    (partHandler false (Query.mk ['a'] false false false) samplePage).tabsClosed = 1 :=
  (c4_tab_lifecycle (Query.mk ['a'] false false false) samplePage (by decide)).2

/-- C5 (counterexample): the claim says every error outcome has a JSON
`\x7b"error": message\x7d` body; the `src/main.go` variant answers the
missing-`url` error with a plain-text body via `http.Error`, whose bytes on
the wire differ from the JSON encoding. -/
theorem c5_counterexample :
    (mainHandler false (Query.mk [] false false false) samplePage).result
      = .reply 400 (.textBody urlRequiredMsg) ∧
    isJsonErrorBody (Body.textBody urlRequiredMsg) = false ∧
    encodeBody (Body.textBody urlRequiredMsg) ≠ encodeBody (Body.errJson urlRequiredMsg) :=
  ⟨rfl, rfl, by decide⟩

/-- C5 (amended): in the `src/unnamed/part_000` variant every error outcome
(gate busy, missing `url`, pipeline failure) is a JSON
`\x7b"error": message\x7d` body with status 503, 400 or 500 respectively;
the `src/main.go` variant uses the same status codes but plain-text bodies. -/
theorem c5_error_bodies (q : Query) (pg : PageState) (e : Str) :
    (partHandler true q pg).result = .reply 503 (.errJson busyMsg) ∧
    (q.url = [] → (partHandler false q pg).result = .reply 400 (.errJson urlRequiredMsg)) ∧
    (q.url ≠ [] → (partPipeline q pg).1 = .fail e →
      (partHandler false q pg).result = .reply 500 (.errJson (scrapeFailMsg ++ e))) ∧
    (mainHandler true q pg).result = .reply 503 (.textBody busyMsg) ∧
    (q.url = [] → (mainHandler false q pg).result = .reply 400 (.textBody urlRequiredMsg)) ∧
    (q.url ≠ [] → (mainPipeline q pg).1 = .fail e →
      (mainHandler false q pg).result = .reply 500 (.textBody (scrapeFailMsg ++ e))) := by
  refine ⟨rfl, fun h => ?_, fun hne hf => ?_, rfl, fun h => ?_, fun hne hf => ?_⟩
  · have : q.url.isEmpty = true := by simp [h]
    simp [partHandler, this]
  · have hempty : q.url.isEmpty = false := List.isEmpty_eq_false.mpr hne
    rcases hpp : partPipeline q pg with ⟨po, tr⟩
    rw [hpp] at hf
    cases po <;> simp_all [partHandler, hempty, hpp]
  · have : q.url.isEmpty = true := by simp [h]
    simp [mainHandler, this]
  · have hempty : q.url.isEmpty = false := List.isEmpty_eq_false.mpr hne
    rcases hmp : mainPipeline q pg with ⟨po, tr⟩
    rw [hmp] at hf
    cases po <;> simp_all [mainHandler, hempty, hmp]

/-- C5 (witness): the theorem at a concrete failing pipeline. -/
theorem c5_witness :
    (partHandler false (Query.mk ['a'] false false false)
        (PageState.mk (.error ['x']) (.ok []) [] none none [])).result
      = .reply 500 (.errJson (scrapeFailMsg ++ ['x'])) :=
  (c5_error_bodies (Query.mk ['a'] false false false)
      (PageState.mk (.error ['x']) (.ok []) [] none none []) ['x']).2.2.1
    (by decide) (by decide)

/-- C6 (counterexample): the claim says an absent `meta[name=description]`
tag never prevents the request from completing; in the `src/main.go`
variant the `meta` directive reads the tag with a nil ok-pointer, a
blocking engine read (the comment at `src/unnamed/part_000` lines 163-164
documents that passing the ok-pointer is what makes the read non-blocking),
so with both meta tags absent the handler never replies, while the
`src/unnamed/part_000` variant completes with empty fields. -/
theorem c6_counterexample :
    (mainHandler false (Query.mk ['u'] false false true) samplePage).result = .blocked ∧
    (partHandler false (Query.mk ['u'] false false true) samplePage).result
      = .reply 200 (.okJson (Response.mk [] [] (some (Meta.mk [] [] [])))) :=
  ⟨rfl, rfl⟩

/-- C6 (amended): in the `src/unnamed/part_000` variant, absence of
`meta[name=description]` or `meta[name=keywords]` never aborts the request
or produces an error response: the pipeline succeeds and the corresponding
field of the meta object is the empty string; in the `src/main.go` variant
an absent tag makes the blocking attribute read wait forever, so the
request never completes. -/
theorem c6_meta_absent (q : Query) (pg : PageState) (b : Str)
    (hnav : pg.nav = .ok ()) (hbody : pg.bodyText = .ok b) (hmeta : q.hasMeta = true) :
    (partPipeline q pg).1 = .ok
        (Response.mk (if q.hasContent then goTrimSpace b else [])
          (if q.hasLinks then extractLinksPart pg.anchors else [])
          (some (Meta.mk pg.title (pg.desc.getD []) (pg.keys.getD [])))) ∧
    (q.url ≠ [] → (partHandler false q pg).result = .reply 200 (.okJson
        (Response.mk (if q.hasContent then goTrimSpace b else [])
          (if q.hasLinks then extractLinksPart pg.anchors else [])
          (some (Meta.mk pg.title (pg.desc.getD []) (pg.keys.getD [])))))) := by
  have hpipe : partPipeline q pg =
      (.ok (Response.mk (if q.hasContent then goTrimSpace b else [])
          (if q.hasLinks then extractLinksPart pg.anchors else [])
          (some (Meta.mk pg.title (pg.desc.getD []) (pg.keys.getD [])))),
        [StepTag.navigateAndWait, StepTag.captchaScan, StepTag.collect]) := by
    simp [partPipeline, hnav, hbody, hmeta]
  refine ⟨by rw [hpipe], fun hne => ?_⟩
  have hempty : q.url.isEmpty = false := List.isEmpty_eq_false.mpr hne
  simp [partHandler, hempty, hpipe]

/-- C6 (witness): the theorem at a concrete request with both meta tags
absent: the request completes with empty description and keywords. -/
theorem c6_witness :
    (partPipeline (Query.mk ['u'] false false true) samplePage).1
      = .ok (Response.mk [] [] (some (Meta.mk [] [] []))) :=
  (c6_meta_absent (Query.mk ['u'] false false true) samplePage [] rfl rfl rfl).1

/-- C7 (counterexample): the claim says every request without a `url`
parameter gets status 400; when the gate is pending the handler rejects it
with 503 instead (the gate is checked before `url` validation). -/
theorem c7_counterexample :
    (mainHandler true (Query.mk [] false false false) samplePage).result
      = .reply 503 (.textBody busyMsg) ∧
    (503 : Nat) ≠ 400 :=
  ⟨rfl, by decide⟩

/-- C7 (amended): a request with an absent or empty `url` parameter that
arrives while the gate is open gets status 400 from both variants, no tab
is ever created, no pipeline step runs, and the gate state is unchanged. -/
theorem c7_missing_url (c l m : Bool) (pg : PageState) :
    mainHandler false (Query.mk [] c l m) pg =
      HandlerOutcome.mk (.reply 400 (.textBody urlRequiredMsg)) 0 0 false [] ∧
    partHandler false (Query.mk [] c l m) pg =
      HandlerOutcome.mk (.reply 400 (.errJson urlRequiredMsg)) 0 0 false [] :=
  ⟨rfl, rfl⟩

/-- C8: a request with a non-empty `url` and none of the `content`, `links`
or `meta` flags whose pipeline succeeds gets status 200 with the zero
`Response`, which serialises to the empty JSON object (all three fields
carry `omitempty`), while navigation and the CAPTCHA scan are still among
the executed steps. -/
theorem c8_empty_response (url b title : Str) (desc keys : Option Str)
    (anchors : List Anchor) (hurl : url ≠ []) :
    mainHandler false (Query.mk url false false false)
        (PageState.mk (.ok ()) (.ok b) title desc keys anchors) =
      HandlerOutcome.mk (.reply 200 (.okJson (Response.mk [] [] none))) 1 1 false
        [.navigateAndWait, .captchaScan, .collect] ∧
    partHandler false (Query.mk url false false false)
        (PageState.mk (.ok ()) (.ok b) title desc keys anchors) =
      HandlerOutcome.mk (.reply 200 (.okJson (Response.mk [] [] none))) 1 1 false
        [.navigateAndWait, .captchaScan, .collect] ∧
    encodeResponse (Response.mk [] [] none) = "\x7b\x7d".toList ∧
    StepTag.navigateAndWait ∈ (mainHandler false (Query.mk url false false false)
        (PageState.mk (.ok ()) (.ok b) title desc keys anchors)).steps ∧
    StepTag.captchaScan ∈ (mainHandler false (Query.mk url false false false)
        (PageState.mk (.ok ()) (.ok b) title desc keys anchors)).steps := by
  have hempty : url.isEmpty = false := List.isEmpty_eq_false.mpr hurl
  refine ⟨?_, ?_, rfl, ?_, ?_⟩ <;>
    simp [mainHandler, partHandler, mainPipeline, partPipeline, hempty]

/-- C8 (witness): the theorem at a concrete request. -/
theorem c8_witness :
    mainHandler false (Query.mk ['u'] false false false)
        (PageState.mk (.ok ()) (.ok []) [] none none []) =
      HandlerOutcome.mk (.reply 200 (.okJson (Response.mk [] [] none))) 1 1 false
        [.navigateAndWait, .captchaScan, .collect] :=
  (c8_empty_response ['u'] [] [] none none [] (by decide)).1

/-- C10 (counterexample): the two handler variants are not observationally
equivalent: on the same request with no `url` parameter and the same page
state both reply 400, but `src/main.go` writes a plain-text body while
`src/unnamed/part_000` writes a JSON error body, and the bodies differ as
wire bytes. -/
theorem c10_counterexample :
    mainHandler false (Query.mk [] false false false) samplePage
      ≠ partHandler false (Query.mk [] false false false) samplePage ∧
    (mainHandler false (Query.mk [] false false false) samplePage).result
      = .reply 400 (.textBody urlRequiredMsg) ∧
    (partHandler false (Query.mk [] false false false) samplePage).result
      = .reply 400 (.errJson urlRequiredMsg) ∧
    encodeBody (Body.textBody urlRequiredMsg) ≠ encodeBody (Body.errJson urlRequiredMsg) :=
  ⟨by decide, rfl, rfl, by decide⟩

/-- C10 (amended): the two variants agree on the status code of every
rejection and failure path (503 while the gate is pending, 400 on a missing
`url`, 500 on the same pipeline failures), and they produce identical
outcomes on a successful pipeline provided the requested meta tags are
present (the blocking reads of the main variant) and, when links are requested, no anchor
href starts with `javascript:` and for each anchor the visible text equals the
text content; their error bodies and the remaining link/meta cases differ. -/
theorem c10_equivalence (q : Query) (pg : PageState) (b e : Str) :
    statusOf (mainHandler true q pg).result = statusOf (partHandler true q pg).result ∧
    (q.url = [] →
      statusOf (mainHandler false q pg).result = statusOf (partHandler false q pg).result) ∧
    ((mainPipeline q pg).1 = .fail e ↔ (partPipeline q pg).1 = .fail e) ∧
    (q.url ≠ [] → (mainPipeline q pg).1 = .fail e →
      statusOf (mainHandler false q pg).result = some 500 ∧
      statusOf (partHandler false q pg).result = some 500) ∧
    (q.url ≠ [] → pg.nav = .ok () → pg.bodyText = .ok b →
      (q.hasMeta = true → pg.desc.isSome ∧ pg.keys.isSome) →
      (q.hasLinks = true → ∀ a ∈ pg.anchors,
          goHasPrefix jsScheme a.href = false ∧ a.textVisible = a.textContent) →
      mainHandler false q pg = partHandler false q pg) := by
  refine ⟨rfl, fun h => ?_, pipelines_fail_iff q pg e, fun hne hf => ?_, ?_⟩
  · have : q.url.isEmpty = true := by simp [h]
    simp [mainHandler, partHandler, this, statusOf]
  · have hempty : q.url.isEmpty = false := List.isEmpty_eq_false.mpr hne
    have hf2 := (pipelines_fail_iff q pg e).mp hf
    rcases hmp : mainPipeline q pg with ⟨po, tr⟩
    rcases hpp : partPipeline q pg with ⟨po2, tr2⟩
    rw [hmp] at hf
    rw [hpp] at hf2
    cases po <;> cases po2 <;>
      simp_all [mainHandler, partHandler, hempty, hmp, hpp, statusOf]
  · intro hne hnav hbody hm hl
    have hempty : q.url.isEmpty = false := List.isEmpty_eq_false.mpr hne
    have hlinks : (if q.hasLinks then extractLinksMain pg.anchors else []) =
        (if q.hasLinks then extractLinksPart pg.anchors else []) := by
      cases hql : q.hasLinks
      · rfl
      · simp only [if_true]
        exact extractLinks_agree pg.anchors (hl hql)
    cases hqm : q.hasMeta
    · simp [mainHandler, partHandler, mainPipeline, partPipeline, hnav, hbody, hempty,
        hqm, hlinks]
    · obtain ⟨hd, hk⟩ := hm hqm
      obtain ⟨d, hd⟩ := Option.isSome_iff_exists.mp hd
      obtain ⟨k, hk⟩ := Option.isSome_iff_exists.mp hk
      simp [mainHandler, partHandler, mainPipeline, partPipeline, hnav, hbody, hempty,
        hqm, hlinks, hd, hk]

/-- C10 (witness): the amended equivalence at a concrete admitted request
with no directives. -/
theorem c10_witness :
    mainHandler false (Query.mk ['u'] false false false) samplePage
      = partHandler false (Query.mk ['u'] false false false) samplePage :=
  (c10_equivalence (Query.mk ['u'] false false false) samplePage [] []).2.2.2.2
    (by decide) rfl rfl (by simp) (by simp)

end WebExtract
